import Mathlib

/-!
Shallow embedding of `src/jolt-core/src/jolt/vm/mod.rs` (the `Jolt` trait's
pipeline orchestration: `prove`, `prove_instruction_lookups`,
`prove_program_code`, `prove_memory`, `verify_memory`, `prove_r1cs`).

The sub-components this trait calls (`ReadWriteMemory`, `PCPolys`, `Surge`,
`InstructionLookups`, the commitment scheme, the transcript) live in modules
that are external to the code under verification; they are modelled as
abstract operations bundled in a record of type parameters and functions,
threaded exactly the way the Rust code threads them.  Rust panics
(`assert!`, `todo!`, `unimplemented!`) are modelled by an explicit `Outcome`
type, and every embedded function additionally returns the list of
construction/verification events it performed, so that "X happens before Y"
and "X never happens" claims are statements about that event list.
-/

namespace Jolt

/-- Outcome of running a Rust function: either a returned value or a panic
(the argument is the panic message). `assert!`, `todo!` and
`unimplemented!` all panic. -/
inductive Outcome (α : Type u) where
  | ret (a : α)
  | panic (msg : String)

/-- Events recording which construction / proving / verification steps a
pipeline function actually performed, in order. -/
inductive Ev where
  | buildReadWriteMemory
  | batchMemory
  | commitMemory
  | proveMemoryChecking
  | buildTimestampLookups
  | proveTimestampValidity
  | buildPCPolys
  | batchPC
  | commitPC
  | provePCMemoryChecking
  | verifyMemoryChecking
  | verifyTimestampValidity
deriving DecidableEq, Repr

/-- A Rust computation that may panic, together with the events it
performed before returning or panicking. -/
def OutM (α : Type u) : Type u := Outcome α × List Ev

/-- Sequencing of panicking computations: a panic short-circuits, so the
continuation's events never happen (this is Rust `panic!` unwinding). -/
def OutM.bind (x : OutM α) (f : α → OutM β) : OutM β :=
  match x with
  | (Outcome.panic m, evs) => (Outcome.panic m, evs)
  | (Outcome.ret a, evs) => ((f a).1, evs ++ (f a).2)

/-- `todo!(msg)` from Rust: panics with "not yet implemented: msg" and
performs no event. -/
def todoPanic (msg : String) : OutM α :=
  (Outcome.panic ("not yet implemented: " ++ msg), [])

/-- A failed `assert!(cond)` from Rust: panics with
"assertion failed: cond" and performs no event. -/
def assertFail (cond : String) : OutM α :=
  (Outcome.panic ("assertion failed: " ++ cond), [])

/-- Modelled from the spec (the `MemoryOp` type lives in the external
`read_write_memory` module): one RAM access
`{address, value, timestamp, kind ∈ {read, write}}`.  The pipeline code
under verification only inspects the trace's length. -/
inductive MemoryOpKind where
  | read
  | write
deriving DecidableEq, Repr

/-- Modelled from the spec: a single memory operation of the RAM trace. -/
structure MemoryOp where
  address : Nat
  value : Nat
  timestamp : Nat
  kind : MemoryOpKind
deriving DecidableEq, Repr

/-- Modelled from the spec (the `ELFRow` type lives in the external `pc`
module): one program-code entry, address plus decoded instruction fields.
The pipeline code only passes rows through, so the decoded fields are
collapsed to an opaque number. -/
structure ELFRow where
  address : Nat
  decoded : Nat
deriving DecidableEq, Repr

/-- The `SLTUInstruction(u64, u64)` tuple struct: a set-less-than-unsigned
lookup asserting that its first component is strictly less than its
second. -/
structure SLTUInstruction where
  a : Nat
  b : Nat
deriving DecidableEq, Repr

/-- The parameters with which the generic `Surge` lookup argument is
instantiated in `Surge<F, G, Instr, C, M>`: the instruction type, the
chunk count `C` and the table size `M`. -/
structure SurgeParams where
  Instr : Type
  C : Nat
  M : Nat

/-- `const MAX_TRACE_SIZE: usize = 1 << 22;` — the maximum trace length
declared inside `prove_memory`. -/
def MAX_TRACE_SIZE : Nat := 1 <<< 22

/-- `const MAX_TRACE_SIZE: usize = 1 << 22;` — the (separate, textually
repeated) maximum trace length declared inside `verify_memory`. -/
def verifyMAX_TRACE_SIZE : Nat := 1 <<< 22

/-- The Surge instantiation used by the prover at
`Surge::<F, G, SLTUInstruction, 2, MAX_TRACE_SIZE>::new(..).prove(..)`. -/
def proveMemorySurgeParams : SurgeParams :=
  ⟨SLTUInstruction, 2, MAX_TRACE_SIZE⟩

/-- The Surge instantiation used by the verifier at
`Surge::<F, G, SLTUInstruction, 2, MAX_TRACE_SIZE>::verify(..)`. -/
def verifyMemorySurgeParams : SurgeParams :=
  ⟨SLTUInstruction, 2, verifyMAX_TRACE_SIZE⟩

/-- The timestamp-validity lookup list built in `prove_memory`:
`read_timestamps.iter().enumerate().map(|(i, &ts)| SLTUInstruction(ts, i as u64 + 1)).collect()`.
(`i as u64` is lossless for any realizable `Vec` index, so indices are
plain naturals here.) -/
def timestamp_validity_lookups (read_timestamps : List Nat) : List SLTUInstruction :=
  read_timestamps.enum.map (fun p => SLTUInstruction.mk p.2 (p.1 + 1))

/-- The external collaborators of the memory stage (`read_write_memory`
module, commitment scheme, memory-checking argument, `Surge`), as abstract
operations over abstract types.  The transcript and random tape are
threaded through explicitly, mirroring the `&mut` threading in Rust. -/
structure MemExt where
  RWMem : Type
  Batched : Type
  Commit : Type
  MCProof : Type
  SProof : Type
  Transcript : Type
  Tape : Type
  Err : Type
  rwmNew : List MemoryOp → Nat → Transcript → (RWMem × List Nat) × Transcript
  batch : RWMem → Batched
  commit : Batched → Commit
  proveMC : RWMem → Batched → Commit → Transcript → Tape → MCProof × Transcript × Tape
  surgeProve : (p : SurgeParams) → List p.Instr → Transcript → SProof × Transcript
  verifyMC : MCProof → Commit → Transcript → (Except Err Unit) × Transcript
  surgeVerify : SurgeParams → SProof → Transcript → (Except Err Unit) × Transcript

/-- The body of `prove_memory` that follows the
`todo!("Load program bytecode into memory")` placeholder (lines 119–141):
build the read-write memory polynomials (obtaining the read-timestamp
list), batch, commit, prove memory checking, then build the
set-less-than-unsigned lookups from the read timestamps and prove
timestamp validity with `Surge`, returning both proofs as a pair. -/
def prove_memory_body (E : MemExt) (memory_trace : List MemoryOp) (memory_size : Nat)
    (transcript : E.Transcript) (random_tape : E.Tape) :
    OutM ((E.MCProof × E.SProof) × E.Transcript × E.Tape) :=
  let r0 := E.rwmNew memory_trace memory_size transcript
  let memory := r0.1.1
  let read_timestamps := r0.1.2
  let t1 := r0.2
  let batched_polys := E.batch memory
  let commitments := E.commit batched_polys
  let r1 := E.proveMC memory batched_polys commitments t1 random_tape
  let memory_checking_proof := r1.1
  let lookups := timestamp_validity_lookups read_timestamps
  let r2 := E.surgeProve proveMemorySurgeParams lookups r1.2.1
  let timestamp_validity_proof := r2.1
  (Outcome.ret ((memory_checking_proof, timestamp_validity_proof), r2.2, r1.2.2),
   [Ev.buildReadWriteMemory, Ev.batchMemory, Ev.commitMemory, Ev.proveMemoryChecking,
    Ev.buildTimestampLookups, Ev.proveTimestampValidity])

/-- `Jolt::prove_memory` (lines 99–142): first
`assert!(memory_trace.len() <= MAX_TRACE_SIZE)`, then
`todo!("Load program bytecode into memory")` — which panics, so the rest
of the body (`prove_memory_body`) is never reached. -/
def prove_memory (E : MemExt) (memory_trace : List MemoryOp) (memory_size : Nat)
    (transcript : E.Transcript) (random_tape : E.Tape) :
    OutM ((E.MCProof × E.SProof) × E.Transcript × E.Tape) :=
  if memory_trace.length ≤ MAX_TRACE_SIZE then
    OutM.bind (todoPanic "Load program bytecode into memory" : OutM Unit)
      (fun _ => prove_memory_body E memory_trace memory_size transcript random_tape)
  else
    assertFail "memory_trace.len() <= MAX_TRACE_SIZE"

/-- `Jolt::verify_memory` (lines 144–161):
`ReadWriteMemory::verify_memory_checking(proof, &commitment, transcript)?;`
then `Surge::<_, _, SLTUInstruction, 2, MAX_TRACE_SIZE>::verify(..)`.
The `?` operator returns the memory-checking error immediately, so the
timestamp-validity verification only happens in the `Ok` branch. -/
def verify_memory (E : MemExt) (memory_checking_proof : E.MCProof) (commitment : E.Commit)
    (transcript : E.Transcript) (timestamp_validity_proof : E.SProof) :
    (Except E.Err Unit × E.Transcript) × List Ev :=
  match E.verifyMC memory_checking_proof commitment transcript with
  | (Except.error e, t1) => ((Except.error e, t1), [Ev.verifyMemoryChecking])
  | (Except.ok _, t1) =>
      (E.surgeVerify verifyMemorySurgeParams timestamp_validity_proof t1,
       [Ev.verifyMemoryChecking, Ev.verifyTimestampValidity])

/-- The external collaborators of the program-code stage (`pc` module):
polynomial construction, batching, commitment and the read-only
memory-checking prover. -/
structure PCExt where
  PCPolys : Type
  Batched : Type
  Commitment : Type
  MCProof : Type
  Transcript : Type
  Tape : Type
  newProgram : List ELFRow → List ELFRow → PCPolys
  batch : PCPolys → Batched
  commit : Batched → Commitment
  proveMC : PCPolys → Batched → Commitment → Transcript → Tape → MCProof × Transcript × Tape

/-- `Jolt::prove_program_code` (lines 61–84): build `PCPolys` from the
program rows and the fetch trace, batch, commit, run the memory-checking
prover against the commitment, and return the proof together with the
commitment. -/
def prove_program_code (E : PCExt) (program trace : List ELFRow)
    (transcript : E.Transcript) (random_tape : E.Tape) :
    ((E.MCProof × E.Commitment) × E.Transcript × E.Tape) × List Ev :=
  let polys := E.newProgram program trace
  let batched_polys := E.batch polys
  let commitments := E.commit batched_polys
  let r := E.proveMC polys batched_polys commitments transcript random_tape
  (((r.1, commitments), r.2.1, r.2.2),
   [Ev.buildPCPolys, Ev.batchPC, Ev.commitPC, Ev.provePCMemoryChecking])

/-- `Jolt::prove` (lines 32–40): the whole body is
`unimplemented!("todo")`, which panics with "not implemented: todo". -/
def prove : OutM Unit :=
  (Outcome.panic "not implemented: todo", [])

/-- `Jolt::prove_r1cs` (lines 163–165): the whole body is
`unimplemented!("todo")`, which panics with "not implemented: todo". -/
def prove_r1cs : OutM Unit :=
  (Outcome.panic "not implemented: todo", [])

/-- A trivial instantiation of the memory stage's external collaborators,
used to evaluate the pipeline functions at concrete inputs. -/
def unitMemExt : MemExt :=
  ⟨Unit, Unit, Unit, Unit, Unit, Unit, Unit, Unit,
   fun _ _ t => (((), []), t),
   fun _ => (),
   fun _ => (),
   fun _ _ _ t tape => ((), t, tape),
   fun _ _ t => ((), t),
   fun _ _ t => (Except.ok (), t),
   fun _ _ t => (Except.ok (), t)⟩

/-- An instantiation of the memory stage's external collaborators whose
memory-checking verifier fails with the numeric error 7, used to exercise
the short-circuit in `verify_memory`. -/
def errMemExt : MemExt :=
  ⟨Unit, Unit, Unit, Unit, Unit, Unit, Unit, Nat,
   fun _ _ t => (((), []), t),
   fun _ => (),
   fun _ => (),
   fun _ _ _ t tape => ((), t, tape),
   fun _ _ t => ((), t),
   fun _ _ t => (Except.error 7, t),
   fun _ _ t => (Except.ok (), t)⟩

/-- A trivial instantiation of the program-code stage's external
collaborators. -/
def unitPCExt : PCExt :=
  ⟨Unit, Unit, Unit, Unit, Unit, Unit,
   fun _ _ => (),
   fun _ => (),
   fun _ => (),
   fun _ _ _ t tape => ((), t, tape)⟩

/-- A throwaway memory operation for concrete traces. -/
def mop0 : MemoryOp := ⟨0, 0, 0, MemoryOpKind.read⟩

theorem MAX_TRACE_SIZE_eq : MAX_TRACE_SIZE = 2 ^ 22 := by
  norm_num [MAX_TRACE_SIZE, Nat.shiftLeft_eq]

/-- C1 (counterexample): on a trace of 2^22 + 1 entries, `prove_memory`
panics with the assertion-failure message — it does not return a
`TraceTooLong` error value (its result type has no error channel at
all). -/
theorem C1_counterexample :
    prove_memory unitMemExt (List.replicate (2 ^ 22 + 1) mop0) 0 () () =
      (Outcome.panic "assertion failed: memory_trace.len() <= MAX_TRACE_SIZE", []) := by
  have h : ¬ (List.replicate (2 ^ 22 + 1) mop0).length ≤ MAX_TRACE_SIZE := by
    rw [List.length_replicate, MAX_TRACE_SIZE_eq]
    norm_num
  unfold prove_memory
  rw [if_neg h]
  rfl

/-- C1 (amended): a trace of at most 2^22 entries passes the
maximum-trace-size check, after which `prove_memory` panics at the `todo!`
placeholder; a longer trace is rejected by an assertion panic (not a
`TraceTooLong` error value).  In both cases the event list is empty: no
commitment is computed. -/
theorem C1_trace_bound (E : MemExt) (memory_trace : List MemoryOp) (memory_size : Nat)
    (t : E.Transcript) (r : E.Tape) :
    (memory_trace.length ≤ 2 ^ 22 →
      prove_memory E memory_trace memory_size t r =
        (Outcome.panic "not yet implemented: Load program bytecode into memory", [])) ∧
    (2 ^ 22 < memory_trace.length →
      prove_memory E memory_trace memory_size t r =
        (Outcome.panic "assertion failed: memory_trace.len() <= MAX_TRACE_SIZE", [])) := by
  constructor
  · intro h
    have h' : memory_trace.length ≤ MAX_TRACE_SIZE := by rw [MAX_TRACE_SIZE_eq]; exact h
    simp [prove_memory, h', todoPanic, OutM.bind]
  · intro h
    have h' : ¬ memory_trace.length ≤ MAX_TRACE_SIZE := by rw [MAX_TRACE_SIZE_eq]; omega
    simp [prove_memory, h', assertFail]

/-- C1 (witness): evaluating the amended claim at a trace of exactly 2^22
entries and at one of 2^22 + 2 entries. -/
theorem C1_witness :
    prove_memory unitMemExt (List.replicate (2 ^ 22) mop0) 0 () () =
      (Outcome.panic "not yet implemented: Load program bytecode into memory", []) ∧
    prove_memory unitMemExt (List.replicate (2 ^ 22 + 2) mop0) 0 () () =
      (Outcome.panic "assertion failed: memory_trace.len() <= MAX_TRACE_SIZE", []) :=
  ⟨(C1_trace_bound unitMemExt (List.replicate (2 ^ 22) mop0) 0 () ()).1
     (by rw [List.length_replicate]),
   (C1_trace_bound unitMemExt (List.replicate (2 ^ 22 + 2) mop0) 0 () ()).2
     (by rw [List.length_replicate]; norm_num)⟩

/-- C2: for any trace within the 2^22 bound, `prove_memory` panics at the
`todo!` placeholder right after the size check, performing no construction
event; and for every input its outcome is a panic, never a returned
value. -/
theorem C2_diverges (E : MemExt) (memory_trace : List MemoryOp) (memory_size : Nat)
    (t : E.Transcript) (r : E.Tape) :
    (memory_trace.length ≤ 2 ^ 22 →
      prove_memory E memory_trace memory_size t r =
        (Outcome.panic "not yet implemented: Load program bytecode into memory", [])) ∧
    (∀ v, (prove_memory E memory_trace memory_size t r).1 ≠ Outcome.ret v) := by
  constructor
  · intro h
    have h' : memory_trace.length ≤ MAX_TRACE_SIZE := by rw [MAX_TRACE_SIZE_eq]; exact h
    simp [prove_memory, h', todoPanic, OutM.bind]
  · intro v
    by_cases h' : memory_trace.length ≤ MAX_TRACE_SIZE
    · simp [prove_memory, h', todoPanic, OutM.bind]
    · simp [prove_memory, h', assertFail]

/-- C2 (witness): the empty trace is within the bound and `prove_memory`
panics on it at the `todo!` placeholder. -/
theorem C2_witness :
    prove_memory unitMemExt [] 0 () () =
      (Outcome.panic "not yet implemented: Load program bytecode into memory", []) :=
  (C2_diverges unitMemExt [] 0 () ()).1 (by simp)

/-- C3: the timestamp-validity lookup list built in `prove_memory` has one
entry per read timestamp, and its i-th entry is exactly the
set-less-than-unsigned lookup `SLTUInstruction(ts, i + 1)` for the i-th
read timestamp `ts`. -/
theorem C3_sltu_lookups (read_timestamps : List Nat) :
    (timestamp_validity_lookups read_timestamps).length = read_timestamps.length ∧
    ∀ i ts, read_timestamps[i]? = some ts →
      (timestamp_validity_lookups read_timestamps)[i]? =
        some (SLTUInstruction.mk ts (i + 1)) := by
  constructor
  · simp [timestamp_validity_lookups]
  · intro i ts h
    simp [timestamp_validity_lookups, List.getElem?_map, List.getElem?_enum, h]

/-- C3 (witness): on the read-timestamp list `[5, 0, 2]` the lookup list
has three entries and its entry at index 1 is `SLTUInstruction(0, 2)`. -/
theorem C3_witness :
    (timestamp_validity_lookups [5, 0, 2]).length = 3 ∧
    (timestamp_validity_lookups [5, 0, 2])[1]? = some (SLTUInstruction.mk 0 2) :=
  ⟨(C3_sltu_lookups [5, 0, 2]).1, (C3_sltu_lookups [5, 0, 2]).2 1 0 rfl⟩

/-- C4: `verify_memory` runs the memory-checking verification first; if it
fails, its error is returned and the event list is exactly
`[verifyMemoryChecking]` — the timestamp-validity proof is never
verified; if it succeeds, the timestamp-validity verification runs
second. -/
theorem C4_verify_order (E : MemExt) (p : E.MCProof) (c : E.Commit)
    (t : E.Transcript) (sp : E.SProof) :
    (verify_memory E p c t sp).2.head? = some Ev.verifyMemoryChecking ∧
    (∀ e t1, E.verifyMC p c t = (Except.error e, t1) →
      verify_memory E p c t sp = ((Except.error e, t1), [Ev.verifyMemoryChecking])) ∧
    (∀ t1, E.verifyMC p c t = (Except.ok (), t1) →
      verify_memory E p c t sp =
        (E.surgeVerify verifyMemorySurgeParams sp t1,
         [Ev.verifyMemoryChecking, Ev.verifyTimestampValidity])) := by
  refine ⟨?_, ?_, ?_⟩
  · rcases h : E.verifyMC p c t with ⟨r, t1⟩
    cases r with
    | error e => simp [verify_memory, h]
    | ok u => simp [verify_memory, h]
  · intro e t1 h
    simp [verify_memory, h]
  · intro t1 h
    simp [verify_memory, h]

/-- C4 (witness): with a memory-checking verifier that fails with error 7,
`verify_memory` returns error 7 and performs only the memory-checking
verification event. -/
theorem C4_witness :
    verify_memory errMemExt () () () () =
      ((Except.error (7 : Nat), ()), [Ev.verifyMemoryChecking]) :=
  (C4_verify_order errMemExt () () () ()).2.1 (7 : Nat) () rfl

/-- C5 (counterexample): `prove` (and likewise `prove_r1cs`) panics with
the `unimplemented!("todo")` message; it does not return any value, let
alone a "not yet available" error — its result type has no error
channel. -/
theorem C5_counterexample :
    prove = ((Outcome.panic "not implemented: todo" : Outcome Unit), ([] : List Ev)) ∧
    prove_r1cs = ((Outcome.panic "not implemented: todo" : Outcome Unit), ([] : List Ev)) :=
  ⟨rfl, rfl⟩

/-- C5 (amended): the unimplemented prover stages `prove` and `prove_r1cs`
abort with an `unimplemented!` panic on every invocation; they never
return to the caller. -/
theorem C5_unimplemented_panic :
    (∀ u : Unit, prove.1 ≠ Outcome.ret u) ∧
    (∀ u : Unit, prove_r1cs.1 ≠ Outcome.ret u) ∧
    prove.1 = Outcome.panic "not implemented: todo" ∧
    prove_r1cs.1 = Outcome.panic "not implemented: todo" := by
  refine ⟨?_, ?_, rfl, rfl⟩ <;> intro u <;> simp [prove, prove_r1cs]

/-- C6: for a trace exceeding the 2^22 bound, `prove_memory` panics on the
size assertion with an empty event list: no read-write memory polynomial
set is built, nothing is batched and no commitment is computed. -/
theorem C6_size_check_first (E : MemExt) (memory_trace : List MemoryOp) (memory_size : Nat)
    (t : E.Transcript) (r : E.Tape) (h : 2 ^ 22 < memory_trace.length) :
    (prove_memory E memory_trace memory_size t r).2 = [] ∧
    (prove_memory E memory_trace memory_size t r).1 =
      Outcome.panic "assertion failed: memory_trace.len() <= MAX_TRACE_SIZE" := by
  have h' : ¬ memory_trace.length ≤ MAX_TRACE_SIZE := by rw [MAX_TRACE_SIZE_eq]; omega
  simp [prove_memory, h', assertFail]

/-- C6 (witness): a trace of 2^22 + 3 entries is rejected with no
construction event. -/
theorem C6_witness :
    (prove_memory unitMemExt (List.replicate (2 ^ 22 + 3) mop0) 0 () ()).2 = [] ∧
    (prove_memory unitMemExt (List.replicate (2 ^ 22 + 3) mop0) 0 () ()).1 =
      Outcome.panic "assertion failed: memory_trace.len() <= MAX_TRACE_SIZE" :=
  C6_size_check_first unitMemExt (List.replicate (2 ^ 22 + 3) mop0) 0 () ()
    (by rw [List.length_replicate]; norm_num)

/-- C7: the prover's and the verifier's Surge instantiations for the
timestamp-validity argument are identical: the set-less-than-unsigned
instruction, chunk count C = 2, and table size M equal to the maximum
trace length 2^22. -/
theorem C7_surge_instantiation :
    proveMemorySurgeParams = verifyMemorySurgeParams ∧
    proveMemorySurgeParams.Instr = SLTUInstruction ∧
    proveMemorySurgeParams.C = 2 ∧
    proveMemorySurgeParams.M = MAX_TRACE_SIZE ∧
    MAX_TRACE_SIZE = 2 ^ 22 :=
  ⟨rfl, rfl, rfl, rfl, MAX_TRACE_SIZE_eq⟩

/-- C8: `prove_program_code` builds the program-code polynomial set from
the program rows and the fetch trace, batches it, commits, proves memory
checking against that commitment, and returns the proof together with the
very commitment it computed; in its event list the commitment event
precedes the memory-checking-proof event. -/
theorem C8_program_code (E : PCExt) (program trace : List ELFRow)
    (t : E.Transcript) (r : E.Tape) :
    (prove_program_code E program trace t r).1.1 =
      ((E.proveMC (E.newProgram program trace) (E.batch (E.newProgram program trace))
          (E.commit (E.batch (E.newProgram program trace))) t r).1,
       E.commit (E.batch (E.newProgram program trace))) ∧
    (prove_program_code E program trace t r).2 =
      [Ev.buildPCPolys, Ev.batchPC, Ev.commitPC, Ev.provePCMemoryChecking] ∧
    ((prove_program_code E program trace t r).2).indexOf Ev.commitPC <
      ((prove_program_code E program trace t r).2).indexOf Ev.provePCMemoryChecking := by
  refine ⟨rfl, rfl, ?_⟩
  show ([Ev.buildPCPolys, Ev.batchPC, Ev.commitPC, Ev.provePCMemoryChecking]).indexOf Ev.commitPC <
    ([Ev.buildPCPolys, Ev.batchPC, Ev.commitPC, Ev.provePCMemoryChecking]).indexOf
      Ev.provePCMemoryChecking
  decide

/-- C9: `prove_memory` applied to the spec's two-operation example trace
(well within the bound) panics at the `todo!("Load program bytecode into
memory")` placeholder with no event: it never reaches the code that would
produce and return the memory-checking proof and the timestamp-validity
proof as a pair. -/
theorem C9_todo_blocks_memory_stage :
    prove_memory unitMemExt
        [MemoryOp.mk 5 1 1 MemoryOpKind.write, MemoryOp.mk 5 1 2 MemoryOpKind.read] 8 () () =
      (Outcome.panic "not yet implemented: Load program bytecode into memory", []) := by
  have h' : ([MemoryOp.mk 5 1 1 MemoryOpKind.write,
      MemoryOp.mk 5 1 2 MemoryOpKind.read] : List MemoryOp).length ≤ MAX_TRACE_SIZE := by
    rw [MAX_TRACE_SIZE_eq]; norm_num
  unfold prove_memory
  rw [if_pos h']
  simp [todoPanic, OutM.bind]

/-- C10: on a four-entry trace (within the bound), `prove_memory` panics
at the `todo!` placeholder and yields no proof at all, so the round-trip
`verify_memory` applied to the output of `prove_memory` cannot return
`Ok`. -/
theorem C10_no_roundtrip_memory_stage :
    prove_memory unitMemExt (List.replicate 4 mop0) 4 () () =
      (Outcome.panic "not yet implemented: Load program bytecode into memory", []) ∧
    ∀ v, (prove_memory unitMemExt (List.replicate 4 mop0) 4 () ()).1 ≠ Outcome.ret v := by
  have h' : (List.replicate 4 mop0).length ≤ MAX_TRACE_SIZE := by
    rw [List.length_replicate, MAX_TRACE_SIZE_eq]; norm_num
  constructor
  · unfold prove_memory
    rw [if_pos h']
    simp [todoPanic, OutM.bind]
  · intro v
    unfold prove_memory
    rw [if_pos h']
    simp [todoPanic, OutM.bind]

end Jolt
